import Mathlib

/-!
# Verification of the postgres-mcp data-access layer

Shallow embedding of `src/main.py` (together with the record types of
`src/utils/types.py`): the connection lifecycle of `app_lifespan`, the two
catalog-introspection operations `get_schema_description` and
`get_table_description`, the ad-hoc query operation `query_database` with its
UUID-normalisation loop, and the YAML serialisation step (`yaml.dump`),
modelled at the level of the YAML data model plus a deterministic renderer.

The database itself is external: each embedded operation takes the rows the
driver would fetch (or a catalog oracle mapping the bound parameters to those
rows) as an explicit argument.
-/

namespace PostgresMcp

/-- A 128-bit unique identifier, as produced by the driver for `uuid` columns
(Python's `uuid.UUID`). `val` is the 128-bit integer value. -/
structure UUID where
  val : Nat
deriving DecidableEq, Repr

/-- Lower-case hexadecimal digit character for `n < 16`. -/
def hexChar (n : Nat) : Char :=
  if n < 10 then Char.ofNat (48 + n) else Char.ofNat (87 + n)

/-- The last `count` hexadecimal digits of `v`, most significant first
(zero-padded). -/
def hexDigits (v : Nat) : Nat → List Char
  | 0 => []
  | k + 1 => hexDigits (v / 16) k ++ [hexChar (v % 16)]

/-- Canonical textual form of a UUID, as returned by Python's `str(uuid)`:
32 lower-case hex digits grouped 8-4-4-4-12 with hyphens. -/
def UUID.canonical (u : UUID) : String :=
  let d := hexDigits u.val 32
  String.mk (d.take 8) ++ "-" ++
  String.mk ((d.drop 8).take 4) ++ "-" ++
  String.mk ((d.drop 12).take 4) ++ "-" ++
  String.mk ((d.drop 16).take 4) ++ "-" ++
  String.mk (d.drop 20)

/-- A scalar value as surfaced by the psycopg driver in a fetched row:
SQL NULL, text, integer, boolean, or a `uuid.UUID` object. -/
inductive Value where
  | vNull
  | vStr (s : String)
  | vInt (n : Int)
  | vBool (b : Bool)
  | vUuid (u : UUID)
deriving DecidableEq, Repr

/-- A row of a connection opened with `row_factory=dict_row`: a mapping from
column name to value (Python dict, embedded as an association list in
iteration order). -/
abbrev Row := List (String × Value)

/-- psycopg row factories: the default returns positional tuples, `dict_row`
returns field-name-keyed records. -/
inductive RowFactory where
  | tupleRow
  | dictRow
deriving DecidableEq, Repr

/-- `app_lifespan` (main.py lines 33-40) opens the session connection with
`row_factory=dict_row`. -/
def sessionConnectRowFactory : RowFactory := RowFactory.dictRow

/-- `get_schema_description` (main.py lines 62-68) opens its per-request
connection without a `row_factory` argument, so rows are positional tuples. -/
def schemaDescriptionRowFactory : RowFactory := RowFactory.tupleRow

/-- `get_table_description` (main.py lines 116-122) opens its per-request
connection without a `row_factory` argument, so rows are positional tuples. -/
def tableDescriptionRowFactory : RowFactory := RowFactory.tupleRow

/-- The observable state of a psycopg connection: open or closed. -/
structure Conn where
  isOpen : Bool
deriving DecidableEq, Repr

/-- The session connection as `app_lifespan` yields it: freshly opened. -/
def sessionConnect : Conn := { isOpen := true }

/-- `app_lifespan`'s `finally` block (main.py line 44): the connection is
closed at session end. -/
def app_lifespan_close (_c : Conn) : Conn := { isOpen := false }

/-! ## Typed records (`src/utils/types.py`) -/

/-- `TableSummary` (types.py lines 12-15). -/
structure TableSummary where
  schema_name : String
  table_name : String
  table_description : Option String
deriving DecidableEq, Repr

/-- `DatabaseSummary` (types.py lines 18-19). -/
structure DatabaseSummary where
  tables : List TableSummary
deriving DecidableEq, Repr

/-- `Column` (types.py lines 22-29). -/
structure Column where
  column_name : String
  data_type : String
  is_nullable : Bool
  column_default : Option String
  character_maximum_length : Option Int
  numeric_precision : Option Int
  numeric_scale : Option Int
deriving DecidableEq, Repr

/-- `Table` (types.py lines 32-35). -/
structure Table where
  schema_name : String
  table_name : String
  columns : List Column
deriving DecidableEq, Repr

/-! ## Pydantic field coercions

Constructing a pydantic model can raise `ValidationError`; the embedded
constructors therefore return `Option`. -/

/-- ASCII lower-casing of one character. -/
def lowerChar (c : Char) : Char :=
  if 65 ≤ c.toNat ∧ c.toNat ≤ 90 then Char.ofNat (c.toNat + 32) else c

/-- ASCII lower-casing of a string. -/
def lowerStr (s : String) : String :=
  String.mk (s.toList.map lowerChar)

/-- Pydantic lax coercion of a string to `bool` (pydantic v2 `str_to_bool`,
case-insensitive); used for `is_nullable`, which `information_schema` reports
as the strings `YES` / `NO`. -/
def strToBool (s : String) : Option Bool :=
  let l := lowerStr s
  if ["0", "off", "f", "false", "n", "no"].contains l then some false
  else if ["1", "on", "t", "true", "y", "yes"].contains l then some true
  else none

/-- Coerce a driver value to a pydantic `str` field. -/
def asStr : Value → Option String
  | Value.vStr s => some s
  | _ => none

/-- Coerce a driver value to a pydantic `bool` field. -/
def asBool : Value → Option Bool
  | Value.vBool b => some b
  | Value.vStr s => strToBool s
  | Value.vInt 0 => some false
  | Value.vInt 1 => some true
  | _ => none

/-- Coerce a driver value to a pydantic `str | None` field. -/
def asOptStr : Value → Option (Option String)
  | Value.vNull => some none
  | Value.vStr s => some (some s)
  | _ => none

/-- Coerce a driver value to a pydantic `int | None` field. -/
def asOptInt : Value → Option (Option Int)
  | Value.vNull => some none
  | Value.vInt n => some (some n)
  | _ => none

/-! ## The two catalog mappings

Both introspection connections use the default row factory, so a fetched row
is a positional tuple, embedded as `List Value`; the source reads its fields
by index (`table[0]`, `column[4]`, ...). -/

/-- The `TableSummary(...)` construction in `get_schema_description`
(main.py lines 90-94): positional access `table[0]`, `table[1]`, `table[2]`.
A missing index (Python `IndexError`) or a failed pydantic coercion makes the
construction fail. -/
def mkTableSummary (row : List Value) : Option TableSummary := do
  let v0 ← row.get? 0
  let v1 ← row.get? 1
  let v2 ← row.get? 2
  let sn ← asStr v0
  let tn ← asStr v1
  let td ← asOptStr v2
  pure { schema_name := sn, table_name := tn, table_description := td }

/-- The `Column(...)` construction in `get_table_description`
(main.py lines 150-158): positional access `column[0]` .. `column[6]`. -/
def mkColumn (row : List Value) : Option Column := do
  let v0 ← row.get? 0
  let v1 ← row.get? 1
  let v2 ← row.get? 2
  let v3 ← row.get? 3
  let v4 ← row.get? 4
  let v5 ← row.get? 5
  let v6 ← row.get? 6
  let cn ← asStr v0
  let dt ← asStr v1
  let nl ← asBool v2
  let cd ← asOptStr v3
  let cml ← asOptInt v4
  let np ← asOptInt v5
  let ns ← asOptInt v6
  pure { column_name := cn, data_type := dt, is_nullable := nl,
         column_default := cd, character_maximum_length := cml,
         numeric_precision := np, numeric_scale := ns }

/-- A Python list comprehension whose element construction can raise:
elements are built left to right, the first failure aborts the whole list. -/
def mapRows {α β : Type} (f : α → Option β) : List α → Option (List β)
  | [] => some []
  | r :: rs => do
    let b ← f r
    let bs ← mapRows f rs
    pure (b :: bs)

/-- The `DatabaseSummary` stage of `get_schema_description`
(main.py lines 88-97), as a function of the rows fetched by the catalog
query. -/
def schemaSummaryOfRows (rows : List (List Value)) : Option DatabaseSummary :=
  (mapRows mkTableSummary rows).map DatabaseSummary.mk

/-- The `Table` stage of `get_table_description` (main.py lines 146-161):
`schema_name` and `table_name` are the caller-supplied arguments, the columns
are mapped from the fetched rows. -/
def tableOfRows (schema table : String) (rows : List (List Value)) :
    Option Table :=
  (mapRows mkColumn rows).map
    (fun cols => { schema_name := schema, table_name := table, columns := cols })

/-! ## Result normalisation (`query_database`, main.py lines 184-193) -/

/-- The body of the per-field loop in `query_database`: a `uuid.UUID` value is
replaced by `str(value)`, every other value is passed through unchanged. -/
def normalizeValue : Value → Value
  | Value.vUuid u => Value.vStr u.canonical
  | v => v

/-- One iteration of the outer loop: rebuild the row dict with every value
normalised, keys unchanged, iteration order preserved. -/
def processRow (row : Row) : Row :=
  row.map (fun kv => (kv.1, normalizeValue kv.2))

/-- The full normalisation loop over all fetched rows. -/
def processRows (rows : List Row) : List Row :=
  rows.map processRow

/-! ## YAML (`yaml.dump`)

`yaml.dump` is modelled in two stages: a representer mapping Python data into
the YAML data model (`Yaml` trees; a `uuid.UUID` object is not representable
and raises `RepresenterError`, which is why `query_database` normalises
first), and a deterministic renderer from trees to text. A conformant reader
recovers the tree, so the round-trip claims are settled at tree level. -/

/-- A node of the YAML data model: scalars, sequences, and string-keyed
mappings. -/
inductive Yaml where
  | yNull
  | yStr (s : String)
  | yInt (n : Int)
  | yBool (b : Bool)
  | ySeq (items : List Yaml)
  | yMap (entries : List (String × Yaml))

/-- Escape one character for a double-quoted YAML scalar. -/
def escChar (c : Char) : List Char :=
  if c = '\\' then ['\\', '\\']
  else if c = '"' then ['\\', '"']
  else if c = '\n' then ['\\', 'n']
  else [c]

/-- Double-quoted YAML scalar for a string. -/
def yamlQuote (s : String) : String :=
  "\"" ++ String.mk (s.toList.map escChar).flatten ++ "\""

mutual

/-- Deterministic flow-style rendering of a YAML tree to text. -/
def Yaml.render : Yaml → String
  | Yaml.yNull => "null"
  | Yaml.yStr s => yamlQuote s
  | Yaml.yInt n => toString n
  | Yaml.yBool true => "true"
  | Yaml.yBool false => "false"
  | Yaml.ySeq items => "[" ++ renderItems items ++ "]"
  | Yaml.yMap entries => "\x7b" ++ renderEntries entries ++ "\x7d"

/-- Comma-separated rendering of a sequence's items. -/
def renderItems : List Yaml → String
  | [] => ""
  | [y] => Yaml.render y
  | y :: y2 :: rest => Yaml.render y ++ ", " ++ renderItems (y2 :: rest)

/-- Comma-separated rendering of a mapping's entries. -/
def renderEntries : List (String × Yaml) → String
  | [] => ""
  | [(k, v)] => yamlQuote k ++ ": " ++ Yaml.render v
  | (k, v) :: e2 :: rest =>
      yamlQuote k ++ ": " ++ Yaml.render v ++ ", " ++ renderEntries (e2 :: rest)

end

/-- The YAML representer on driver scalar values: a `uuid.UUID` object cannot
be represented (`yaml.dump` raises `RepresenterError`). -/
def valueToYaml : Value → Option Yaml
  | Value.vNull => some Yaml.yNull
  | Value.vStr s => some (Yaml.yStr s)
  | Value.vInt n => some (Yaml.yInt n)
  | Value.vBool b => some (Yaml.yBool b)
  | Value.vUuid _ => none

/-- The YAML representer on one query-result row (a dict). -/
def rowToYaml (r : Row) : Option Yaml :=
  (mapRows (fun kv => (valueToYaml kv.2).map (fun y => (kv.1, y))) r).map
    Yaml.yMap

/-- The YAML representer on a list of query-result rows: the document
`yaml.dump(processed_rows)` stands for. -/
def rowsToYaml (rs : List Row) : Option Yaml :=
  (mapRows rowToYaml rs).map Yaml.ySeq

/-- Representer for a `str | None` field of a pydantic `model_dump`. -/
def optStrToYaml : Option String → Yaml
  | none => Yaml.yNull
  | some s => Yaml.yStr s

/-- Representer for an `int | None` field of a pydantic `model_dump`. -/
def optIntToYaml : Option Int → Yaml
  | none => Yaml.yNull
  | some n => Yaml.yInt n

/-- The YAML tree of `column.model_dump()` for a `Column`. -/
def columnToYaml (c : Column) : Yaml :=
  Yaml.yMap
    [("column_name", Yaml.yStr c.column_name),
     ("data_type", Yaml.yStr c.data_type),
     ("is_nullable", Yaml.yBool c.is_nullable),
     ("column_default", optStrToYaml c.column_default),
     ("character_maximum_length", optIntToYaml c.character_maximum_length),
     ("numeric_precision", optIntToYaml c.numeric_precision),
     ("numeric_scale", optIntToYaml c.numeric_scale)]

/-- The YAML tree of `table_obj.model_dump()` for a `Table`. -/
def tableToYaml (t : Table) : Yaml :=
  Yaml.yMap
    [("schema_name", Yaml.yStr t.schema_name),
     ("table_name", Yaml.yStr t.table_name),
     ("columns", Yaml.ySeq (t.columns.map columnToYaml))]

/-- The YAML tree of `summary.model_dump()` for a `TableSummary`. -/
def tableSummaryToYaml (t : TableSummary) : Yaml :=
  Yaml.yMap
    [("schema_name", Yaml.yStr t.schema_name),
     ("table_name", Yaml.yStr t.table_name),
     ("table_description", optStrToYaml t.table_description)]

/-- The YAML tree of `db_summary.model_dump()` for a `DatabaseSummary`. -/
def databaseSummaryToYaml (d : DatabaseSummary) : Yaml :=
  Yaml.yMap [("tables", Yaml.ySeq (d.tables.map tableSummaryToYaml))]

/-! ## Conformant readers of the serialised output -/

/-- Read a scalar node back as a QueryRow value. -/
def yamlToValue : Yaml → Option Value
  | Yaml.yNull => some Value.vNull
  | Yaml.yStr s => some (Value.vStr s)
  | Yaml.yInt n => some (Value.vInt n)
  | Yaml.yBool b => some (Value.vBool b)
  | _ => none

/-- Read one mapping node back as a QueryRow. -/
def yamlToRow : Yaml → Option Row
  | Yaml.yMap entries =>
      mapRows (fun kv => (yamlToValue kv.2).map (fun v => (kv.1, v))) entries
  | _ => none

/-- Read a sequence node back as a list of QueryRows. -/
def yamlToRows : Yaml → Option (List Row)
  | Yaml.ySeq items => mapRows yamlToRow items
  | _ => none

/-- Read a `str | None` field back. -/
def yamlToOptStr : Yaml → Option (Option String)
  | Yaml.yNull => some none
  | Yaml.yStr s => some (some s)
  | _ => none

/-- Read an `int | None` field back. -/
def yamlToOptInt : Yaml → Option (Option Int)
  | Yaml.yNull => some none
  | Yaml.yInt n => some (some n)
  | _ => none

/-- Read a `Column` back from its dumped mapping node. -/
def yamlToColumn : Yaml → Option Column
  | Yaml.yMap
      [("column_name", Yaml.yStr cn),
       ("data_type", Yaml.yStr dt),
       ("is_nullable", Yaml.yBool nl),
       ("column_default", cd),
       ("character_maximum_length", cml),
       ("numeric_precision", np),
       ("numeric_scale", ns)] =>
      match yamlToOptStr cd, yamlToOptInt cml, yamlToOptInt np,
            yamlToOptInt ns with
      | some cd, some cml, some np, some ns =>
          some { column_name := cn, data_type := dt, is_nullable := nl,
                 column_default := cd, character_maximum_length := cml,
                 numeric_precision := np, numeric_scale := ns }
      | _, _, _, _ => none
  | _ => none

/-- Read a `Table` back from its dumped mapping node. -/
def yamlToTable : Yaml → Option Table
  | Yaml.yMap
      [("schema_name", Yaml.yStr sn),
       ("table_name", Yaml.yStr tn),
       ("columns", Yaml.ySeq cols)] =>
      (mapRows yamlToColumn cols).map
        (fun cs => { schema_name := sn, table_name := tn, columns := cs })
  | _ => none

/-- Read a `TableSummary` back from its dumped mapping node. -/
def yamlToTableSummary : Yaml → Option TableSummary
  | Yaml.yMap
      [("schema_name", Yaml.yStr sn),
       ("table_name", Yaml.yStr tn),
       ("table_description", td)] =>
      (yamlToOptStr td).map
        (fun d => { schema_name := sn, table_name := tn,
                    table_description := d })
  | _ => none

/-- Read a `DatabaseSummary` back from its dumped mapping node. -/
def yamlToDatabaseSummary : Yaml → Option DatabaseSummary
  | Yaml.yMap [("tables", Yaml.ySeq ts)] =>
      (mapRows yamlToTableSummary ts).map DatabaseSummary.mk
  | _ => none

/-! ## The three entry points, end to end -/

/-- `get_schema_description` (main.py lines 52-100) as a function of the
catalog: `catalog schema` is the row list the fixed introspection query
fetches for the bound `schema` parameter on the fresh per-request
connection. The result is the YAML text, `none` standing for a raised
exception. -/
def get_schema_description (catalog : String → List (List Value))
    (schema : String) : Option String :=
  (schemaSummaryOfRows (catalog schema)).map
    (fun d => (databaseSummaryToYaml d).render)

/-- `get_table_description` (main.py lines 105-164) as a function of the
catalog: `catalogCols schema table` is the row list the fixed
`information_schema.columns` query fetches for the bound parameters. -/
def get_table_description (catalogCols : String → String → List (List Value))
    (schema table : String) : Option String :=
  (tableOfRows schema table (catalogCols schema table)).map
    (fun t => (tableToYaml t).render)

/-- A server-side statement failure, carrying the driver's diagnostic text. -/
structure QueryError where
  msg : String
deriving DecidableEq, Repr

/-- `query_database` (main.py lines 168-196). `exec` is the database's
behaviour for a caller-supplied SQL string on the session connection: either
a failure or the fetched dict rows. The crucial lifecycle fact embedded here:
the body runs inside `with db_connection as conn:`, and psycopg's
`Connection.__exit__` closes the connection when the block exits, on success
and on error alike; a call on an already-closed connection fails (psycopg
raises `OperationalError: the connection is closed`) and leaves the state
unchanged. Returns the result (YAML text or error) paired with the session
connection's state after the call. -/
def query_database (exec : String → Except QueryError (List Row))
    (query : String) (conn : Conn) : Except QueryError String × Conn :=
  if conn.isOpen then
    match exec query with
    | Except.error e => (Except.error e, { isOpen := false })
    | Except.ok rows =>
        match rowsToYaml (processRows rows) with
        | some y => (Except.ok y.render, { isOpen := false })
        | none => (Except.error { msg := "yaml representer error" },
                   { isOpen := false })
  else
    (Except.error { msg := "the connection is closed" }, conn)

/-- Default `Column`, only used to state positional access via `List.getD`. -/
def defaultColumn : Column :=
  { column_name := "", data_type := "", is_nullable := false,
    column_default := none, character_maximum_length := none,
    numeric_precision := none, numeric_scale := none }

/-- The scalar YAML node a representable (non-UUID) driver value maps to;
on a UUID it gives the node of the canonical string (only applied to
normalised values, where UUIDs no longer occur). -/
def scalarYaml : Value → Yaml
  | Value.vNull => Yaml.yNull
  | Value.vStr s => Yaml.yStr s
  | Value.vInt n => Yaml.yInt n
  | Value.vBool b => Yaml.yBool b
  | Value.vUuid u => Yaml.yStr u.canonical

/-- The YAML document `yaml.dump(processed_rows)` serialises for the
normalised rows of `query_database`. -/
def normalizedDoc (rows : List Row) : Yaml :=
  Yaml.ySeq (rows.map (fun r =>
    Yaml.yMap (r.map (fun kv => (kv.1, scalarYaml (normalizeValue kv.2))))))

/-- Concrete catalog rows used by the C6 witness. -/
def c6rows : List (List Value) :=
  [[Value.vStr "id", Value.vStr "uuid", Value.vStr "NO", Value.vNull,
    Value.vNull, Value.vNull, Value.vNull]]

/-- The descriptor the C6 witness rows map to. -/
def c6table : Table :=
  { schema_name := "public", table_name := "users",
    columns := [{ column_name := "id", data_type := "uuid",
                  is_nullable := false, column_default := none,
                  character_maximum_length := none,
                  numeric_precision := none, numeric_scale := none }] }

/-! ## Helper lemmas -/

theorem mapRows_length_getD {α β : Type} (f : α → Option β) (da : α) (db : β) :
    ∀ (l : List α) (r : List β), mapRows f l = some r →
      r.length = l.length ∧
      ∀ i : Nat, i < l.length → f (l.getD i da) = some (r.getD i db) := by
  intro l
  induction l with
  | nil =>
    intro r h
    simp only [mapRows, Option.some.injEq] at h
    subst h
    exact ⟨rfl, fun i hi => absurd hi (Nat.not_lt_zero i)⟩
  | cons a as ih =>
    intro r h
    cases hb : f a with
    | none => simp [mapRows, hb] at h
    | some b =>
      cases hbs : mapRows f as with
      | none => simp [mapRows, hb, hbs] at h
      | some bs =>
        simp [mapRows, hb, hbs] at h
        subst h
        obtain ⟨hlen, hget⟩ := ih bs hbs
        refine ⟨by simp [hlen], ?_⟩
        intro i hi
        cases i with
        | zero => simpa using hb
        | succ i => exact hget i (Nat.lt_of_succ_lt_succ hi)

theorem getD_map_eq {α β : Type} (f : α → β) :
    ∀ (l : List α) (i : Nat) (d : α),
      (l.map f).getD i (f d) = f (l.getD i d)
  | [], _, _ => rfl
  | _ :: _, 0, _ => rfl
  | _ :: as, i + 1, d => getD_map_eq f as i d

/-! ## Claims -/

/-- C3: for every (schema, table) pair whose catalog query fetches zero rows
(absent table or table with no columns), `get_table_description` builds a
`Table` descriptor with an empty column sequence and returns its YAML text
without raising. -/
theorem c3_absent_table_empty_columns
    (catalogCols : String → String → List (List Value))
    (schema table : String) (h : catalogCols schema table = []) :
    tableOfRows schema table (catalogCols schema table) =
      some { schema_name := schema, table_name := table, columns := [] } ∧
    ∃ out, get_table_description catalogCols schema table = some out := by
  constructor
  · rw [h]; rfl
  · exact ⟨_, by rw [get_table_description, h]; rfl⟩

/-- C3 witness: a concrete catalog with no row for (`public`, `ghost`). -/
theorem c3_witness :
    tableOfRows "public" "ghost" ((fun _ _ => []) "public" "ghost") =
      some { schema_name := "public", table_name := "ghost", columns := [] } ∧
    ∃ out, get_table_description (fun _ _ => []) "public" "ghost" =
      some out :=
  c3_absent_table_empty_columns (fun _ _ => []) "public" "ghost" rfl

/-- C4: for every schema name for which the catalog query fetches zero rows
(including an absent schema), `get_schema_description` builds a
`DatabaseSummary` with an empty table sequence and returns its YAML text
without raising. -/
theorem c4_empty_schema_summary (catalog : String → List (List Value))
    (schema : String) (h : catalog schema = []) :
    schemaSummaryOfRows (catalog schema) = some { tables := [] } ∧
    ∃ out, get_schema_description catalog schema = some out := by
  constructor
  · rw [h]; rfl
  · exact ⟨_, by rw [get_schema_description, h]; rfl⟩

/-- C4 witness: a concrete catalog with no tables in schema `empty`. -/
theorem c4_witness :
    schemaSummaryOfRows ((fun _ => []) "empty") = some { tables := [] } ∧
    ∃ out, get_schema_description (fun _ => []) "empty" = some out :=
  c4_empty_schema_summary (fun _ => []) "empty" rfl

/-- C5: the normalisation loop of `query_database` keeps the number of rows,
and maps every field of every row pointwise: the key is kept, a UUID value
becomes its canonical string, every other value is unchanged (stated for
arbitrary field coordinates via defaults that are fixed points of the
mapping). -/
theorem c5_normalizer_pointwise (rows : List Row) (i j : Nat) :
    (processRows rows).length = rows.length ∧
    ((processRows rows).getD i []).getD j ("", Value.vNull) =
      (((rows.getD i []).getD j ("", Value.vNull)).1,
        match ((rows.getD i []).getD j ("", Value.vNull)).2 with
        | Value.vUuid u => Value.vStr u.canonical
        | v => v) := by
  constructor
  · simp [processRows]
  · have e1 : ((processRows rows).getD i []).getD j ("", Value.vNull) =
        (fun kv : String × Value => (kv.1, normalizeValue kv.2))
          ((rows.getD i []).getD j ("", Value.vNull)) :=
      Eq.trans
        (congrArg (fun l : Row => l.getD j ("", Value.vNull))
          (getD_map_eq processRow rows i []))
        (getD_map_eq (fun kv : String × Value => (kv.1, normalizeValue kv.2))
          (rows.getD i []) j ("", Value.vNull))
    rw [e1]
    rcases (rows.getD i []).getD j ("", Value.vNull) with ⟨k, v⟩
    cases v <;> rfl

/-- C6: the mapping step of `get_table_description` preserves catalog row
order exactly: when it succeeds, the result has one `Column` per input row
and the i-th `Column` is built from the i-th fetched row. -/
theorem c6_column_order (schema table : String) (rows : List (List Value))
    (t : Table) (i : Nat) (h : tableOfRows schema table rows = some t)
    (hi : i < rows.length) :
    t.columns.length = rows.length ∧
    mkColumn (rows.getD i []) = some (t.columns.getD i defaultColumn) := by
  rw [tableOfRows] at h
  cases hm : mapRows mkColumn rows with
  | none => rw [hm] at h; cases h
  | some cols =>
    rw [hm] at h
    simp only [Option.map_some', Option.some.injEq] at h
    obtain ⟨hlen, hget⟩ := mapRows_length_getD mkColumn [] defaultColumn rows cols hm
    subst h
    exact ⟨hlen, hget i hi⟩

/-- C6 witness: one catalog row for (`public`, `users`), mapped to the one
column of the resulting descriptor. -/
theorem c6_witness :
    c6table.columns.length = c6rows.length ∧
    mkColumn (c6rows.getD 0 []) =
      some (c6table.columns.getD 0 defaultColumn) :=
  c6_column_order "public" "users" c6rows c6table 0 (by decide) (by decide)

/-- C9: `get_schema_description` is deterministic over a fixed database
state: two calls for the same schema whose catalog query fetches the same
rows produce identical serialized output strings. -/
theorem c9_deterministic (catalog1 catalog2 : String → List (List Value))
    (schema : String) (h : catalog1 schema = catalog2 schema) :
    get_schema_description catalog1 schema =
      get_schema_description catalog2 schema := by
  rw [get_schema_description, get_schema_description, h]

/-- C9 witness: two calls over the same one-table catalog state. -/
theorem c9_witness :
    get_schema_description
      (fun _ => [[Value.vStr "public", Value.vStr "users",
                  Value.vStr "Application users"]]) "public" =
    get_schema_description
      (fun s => if s = "missing" then []
                else [[Value.vStr "public", Value.vStr "users",
                       Value.vStr "Application users"]]) "public" :=
  c9_deterministic _ _ "public" rfl

/-- C10: the `schema_name` and `table_name` of the descriptor built by
`get_table_description` are exactly the caller-supplied arguments, whatever
rows the catalog query fetched (including zero rows for an absent table). -/
theorem c10_names_echoed (schema table : String) (rows : List (List Value))
    (t : Table) (h : tableOfRows schema table rows = some t) :
    t.schema_name = schema ∧ t.table_name = table := by
  rw [tableOfRows] at h
  cases hm : mapRows mkColumn rows with
  | none => rw [hm] at h; cases h
  | some cols =>
    rw [hm] at h
    simp only [Option.map_some', Option.some.injEq] at h
    subst h
    exact ⟨rfl, rfl⟩

/-- C10 witness: an absent table still echoes the supplied names. -/
theorem c10_witness :
    ({ schema_name := "public", table_name := "ghost",
       columns := [] } : Table).schema_name = "public" ∧
    ({ schema_name := "public", table_name := "ghost",
       columns := [] } : Table).table_name = "ghost" :=
  c10_names_echoed "public" "ghost" [] _ (by decide)

/-! ## Round-trip helper lemmas -/

theorem valueToYaml_normalize (v : Value) :
    valueToYaml (normalizeValue v) = some (scalarYaml (normalizeValue v)) := by
  cases v <;> rfl

theorem yamlToValue_scalar_normalize (v : Value) :
    yamlToValue (scalarYaml (normalizeValue v)) = some (normalizeValue v) := by
  cases v <;> rfl

theorem mapRows_fields_norm (r : Row) :
    mapRows (fun kv => (valueToYaml kv.2).map (fun y => (kv.1, y)))
        (r.map (fun kv => (kv.1, normalizeValue kv.2))) =
      some (r.map (fun kv => (kv.1, scalarYaml (normalizeValue kv.2)))) := by
  induction r with
  | nil => rfl
  | cons kv rest ih =>
    simp [mapRows, valueToYaml_normalize kv.2, ih]

theorem mapRows_fields_back (r : Row) :
    mapRows (fun kv => (yamlToValue kv.2).map (fun v => (kv.1, v)))
        (r.map (fun kv => (kv.1, scalarYaml (normalizeValue kv.2)))) =
      some (r.map (fun kv => (kv.1, normalizeValue kv.2))) := by
  induction r with
  | nil => rfl
  | cons kv rest ih =>
    simp [mapRows, yamlToValue_scalar_normalize kv.2, ih]

theorem rowToYaml_processRow (r : Row) :
    rowToYaml (processRow r) =
      some (Yaml.yMap
        (r.map (fun kv => (kv.1, scalarYaml (normalizeValue kv.2))))) := by
  rw [rowToYaml, show processRow r =
      r.map (fun kv => (kv.1, normalizeValue kv.2)) from rfl,
    mapRows_fields_norm r]
  rfl

theorem yamlToRow_normalized (r : Row) :
    yamlToRow (Yaml.yMap
        (r.map (fun kv => (kv.1, scalarYaml (normalizeValue kv.2))))) =
      some (processRow r) := by
  rw [yamlToRow, mapRows_fields_back r]
  rfl

theorem rowsToYaml_processRows (rows : List Row) :
    rowsToYaml (processRows rows) = some (normalizedDoc rows) := by
  rw [rowsToYaml, normalizedDoc]
  have h : mapRows rowToYaml (processRows rows) =
      some (rows.map (fun r => Yaml.yMap
        (r.map (fun kv => (kv.1, scalarYaml (normalizeValue kv.2)))))) := by
    induction rows with
    | nil => rfl
    | cons r rest ih =>
      simp [processRows, mapRows, rowToYaml_processRow r] at ih ⊢
      simp [ih]
  rw [h]
  rfl

theorem yamlToRows_normalizedDoc (rows : List Row) :
    yamlToRows (normalizedDoc rows) = some (processRows rows) := by
  rw [normalizedDoc, yamlToRows]
  have h : mapRows yamlToRow
      (rows.map (fun r => Yaml.yMap
        (r.map (fun kv => (kv.1, scalarYaml (normalizeValue kv.2)))))) =
      some (rows.map processRow) := by
    induction rows with
    | nil => rfl
    | cons r rest ih =>
      simp [mapRows, yamlToRow_normalized r, ih]
  rw [show processRows rows = rows.map processRow from rfl]
  exact h

theorem yamlToColumn_roundtrip (c : Column) :
    yamlToColumn (columnToYaml c) = some c := by
  rcases c with ⟨cn, dt, nl, cd, cml, np, ns⟩
  cases cd <;> cases cml <;> cases np <;> cases ns <;> rfl

theorem mapRows_columns_roundtrip (cols : List Column) :
    mapRows yamlToColumn (cols.map columnToYaml) = some cols := by
  induction cols with
  | nil => rfl
  | cons c cs ih => simp [mapRows, yamlToColumn_roundtrip c, ih]

theorem yamlToTable_roundtrip (t : Table) :
    yamlToTable (tableToYaml t) = some t := by
  rcases t with ⟨sn, tn, cols⟩
  rw [tableToYaml, yamlToTable, mapRows_columns_roundtrip cols]
  rfl

theorem yamlToTableSummary_roundtrip (t : TableSummary) :
    yamlToTableSummary (tableSummaryToYaml t) = some t := by
  rcases t with ⟨sn, tn, td⟩
  cases td <;> rfl

theorem mapRows_summaries_roundtrip (ts : List TableSummary) :
    mapRows yamlToTableSummary (ts.map tableSummaryToYaml) = some ts := by
  induction ts with
  | nil => rfl
  | cons t rest ih => simp [mapRows, yamlToTableSummary_roundtrip t, ih]

theorem yamlToDatabaseSummary_roundtrip (d : DatabaseSummary) :
    yamlToDatabaseSummary (databaseSummaryToYaml d) = some d := by
  rcases d with ⟨ts⟩
  rw [databaseSummaryToYaml, yamlToDatabaseSummary,
    mapRows_summaries_roundtrip ts]
  rfl

theorem get?_append_lt {α : Type} :
    ∀ (l₁ l₂ : List α) (n : Nat), n < l₁.length →
      (l₁ ++ l₂).get? n = l₁.get? n
  | _ :: _, _, 0, _ => rfl
  | _ :: as, l₂, n + 1, h => get?_append_lt as l₂ n (Nat.lt_of_succ_lt_succ h)
  | [], _, n, h => absurd h (Nat.not_lt_zero n)

theorem query_database_closes (exec : String → Except QueryError (List Row))
    (q : String) (conn : Conn) (h : conn.isOpen = true) :
    (query_database exec q conn).2 = { isOpen := false } := by
  cases he : exec q with
  | error e => simp [query_database, h, he]
  | ok rows =>
      cases hy : rowsToYaml (processRows rows) <;>
        simp [query_database, h, he, hy]

/-- C1: the claim says the session connection stays open across
`query_database` calls and is closed only at session end; in the code the
tool body runs in `with db_connection as conn:`, and psycopg's
`Connection.__exit__` closes the connection when the block exits, so the
session connection is closed after the first call and every later call in
the same session fails on a closed connection. -/
theorem c1_session_connection_closed_after_first_call
    (exec : String → Except QueryError (List Row)) (q1 q2 : String) :
    ((query_database exec q1 sessionConnect).2).isOpen = false ∧
    (query_database exec q2 (query_database exec q1 sessionConnect).2).1 =
      Except.error { msg := "the connection is closed" } := by
  have h1 : (query_database exec q1 sessionConnect).2 = { isOpen := false } :=
    query_database_closes exec q1 sessionConnect rfl
  rw [h1]
  exact ⟨rfl, rfl⟩

/-- C2 counterexample: the claim says every connection produced by the
Connection Provider exposes rows as field-name-keyed records; the two
per-request introspection connections (main.py lines 62-68 and 116-122) are
opened without `row_factory=dict_row`, so their rows are positional
tuples. -/
theorem c2_counterexample :
    ¬ (schemaDescriptionRowFactory = RowFactory.dictRow ∧
       tableDescriptionRowFactory = RowFactory.dictRow) := by
  decide

/-- C2 amended: only the session connection of `app_lifespan` is created
with the name-keyed `dict_row` factory (and `query_database` reads its rows
by name); the per-request introspection connections use the default
positional tuple rows, and the `TableSummary` and `Column` mapping steps
read their fields by positional index (0..2 and 0..6 respectively) — each
result depends only on those positions (appending further fields changes
nothing). -/
theorem c2_amended_row_access (row extra row7 extra7 : List Value)
    (h : 3 ≤ row.length) (h7 : 7 ≤ row7.length) :
    (sessionConnectRowFactory = RowFactory.dictRow ∧
     schemaDescriptionRowFactory = RowFactory.tupleRow ∧
     tableDescriptionRowFactory = RowFactory.tupleRow) ∧
    mkTableSummary (row ++ extra) = mkTableSummary row ∧
    mkColumn (row7 ++ extra7) = mkColumn row7 := by
  refine ⟨⟨rfl, rfl, rfl⟩, ?_, ?_⟩
  · rw [mkTableSummary, mkTableSummary,
      get?_append_lt row extra 0 (by omega),
      get?_append_lt row extra 1 (by omega),
      get?_append_lt row extra 2 (by omega)]
  · rw [mkColumn, mkColumn,
      get?_append_lt row7 extra7 0 (by omega),
      get?_append_lt row7 extra7 1 (by omega),
      get?_append_lt row7 extra7 2 (by omega),
      get?_append_lt row7 extra7 3 (by omega),
      get?_append_lt row7 extra7 4 (by omega),
      get?_append_lt row7 extra7 5 (by omega),
      get?_append_lt row7 extra7 6 (by omega)]

/-- C2 amended witness: a concrete three-field catalog tuple and a concrete
seven-field catalog tuple, each with one extra trailing field. -/
theorem c2_amended_witness :
    (sessionConnectRowFactory = RowFactory.dictRow ∧
     schemaDescriptionRowFactory = RowFactory.tupleRow ∧
     tableDescriptionRowFactory = RowFactory.tupleRow) ∧
    mkTableSummary
        ([Value.vStr "public", Value.vStr "users", Value.vNull] ++
          [Value.vInt 7]) =
      mkTableSummary [Value.vStr "public", Value.vStr "users", Value.vNull] ∧
    mkColumn
        ([Value.vStr "id", Value.vStr "uuid", Value.vStr "NO", Value.vNull,
          Value.vNull, Value.vNull, Value.vNull] ++ [Value.vInt 7]) =
      mkColumn [Value.vStr "id", Value.vStr "uuid", Value.vStr "NO",
        Value.vNull, Value.vNull, Value.vNull, Value.vNull] :=
  c2_amended_row_access
    [Value.vStr "public", Value.vStr "users", Value.vNull]
    [Value.vInt 7]
    [Value.vStr "id", Value.vStr "uuid", Value.vStr "NO", Value.vNull,
     Value.vNull, Value.vNull, Value.vNull]
    [Value.vInt 7] (by decide) (by decide)

/-- C7: `query_database` has no partial-result semantics: for every database
behaviour, query string and connection state, either the call fully succeeds
and returns the serialisation of all fetched rows normalised, or it returns
an error carrying no row set at all. -/
theorem c7_no_partial_results (exec : String → Except QueryError (List Row))
    (q : String) (conn : Conn) :
    (∃ rows, exec q = Except.ok rows ∧
       (query_database exec q conn).1 =
         Except.ok (Yaml.render (normalizedDoc rows))) ∨
    (∃ e, (query_database exec q conn).1 = Except.error e) := by
  cases hco : conn.isOpen with
  | false =>
    exact Or.inr ⟨{ msg := "the connection is closed" },
      by simp [query_database, hco]⟩
  | true =>
    cases he : exec q with
    | error e => exact Or.inr ⟨e, by simp [query_database, hco, he]⟩
    | ok rows =>
      refine Or.inl ⟨rows, rfl, ?_⟩
      simp [query_database, hco, he, rowsToYaml_processRows rows]

/-- C8: serialisation round-trips at the level of the YAML data model: the
document written for a sequence of normalised QueryRows parses back to
exactly those rows, and the documents written for any `Table` descriptor or
`DatabaseSummary` parse back to field-for-field equal records. -/
theorem c8_serialization_roundtrip (rows : List Row) (t : Table)
    (d : DatabaseSummary) :
    (∃ y, rowsToYaml (processRows rows) = some y ∧
       yamlToRows y = some (processRows rows)) ∧
    yamlToTable (tableToYaml t) = some t ∧
    yamlToDatabaseSummary (databaseSummaryToYaml d) = some d :=
  ⟨⟨normalizedDoc rows, rowsToYaml_processRows rows,
    yamlToRows_normalizedDoc rows⟩,
   yamlToTable_roundtrip t, yamlToDatabaseSummary_roundtrip d⟩

end PostgresMcp
